import Mathlib

/-!
Shallow embedding of the fintech transfer engine in `src/python/main.py`.

The durable store (tables `accounts`, `ledger`, `processed_ops`) is modelled
as an explicit state record.  `Store.transfer` is the embedding of the
method of the same name: amounts are modelled as exact rationals (the
Python source stores them as floats, the spec calls them fixed-precision
decimals), the `ValueError`s raised by the source become an explicit error
type, and the observable actions taken during a request (metric counter
increments, gauge updates, `SELECT ... FOR UPDATE` lock acquisitions,
transaction begin/commit/rollback) are recorded as an event trace so that
ordering claims can be stated.

The exact-rational amounts cover every value the engine's arithmetic can
produce from finite inputs, but the pydantic `float` request field also
admits the non-finite IEEE values; `Store.transferFloat` repeats the same
control flow over a value domain with `inf`, `-inf` and `NaN` and IEEE
comparison semantics, so that the behaviour of the validation and balance
checks on non-finite amounts can be settled faithfully.
-/

namespace Fintech

/-- Embedding of the pydantic `TransferRequest` model (aliases
`fromAccountId`, `toAccountId`, `operationId`).  `operation_id` is
`None`-able in the source, hence `Option String` here. -/
structure TransferRequest where
  from_account_id : String
  to_account_id : String
  amount : ℚ
  operation_id : Option String
  deriving DecidableEq, Repr

/-- Embedding of the pydantic `TransferResponse` model; `balances` is a
`Dict[str, float] | None`, modelled as an association list. -/
structure TransferResponse where
  status : String
  message : String
  balances : Option (List (String × ℚ))
  deriving DecidableEq, Repr

/-- Embedding of a row of the `ledger` table (and of the pydantic
`LedgerEntry`): type is `"DEBIT"` or `"CREDIT"`, `at_` is the timestamp
string (`datetime.utcnow().isoformat()` in the source). -/
structure LedgerEntry where
  type : String
  accountId : String
  amount : ℚ
  at_ : String
  deriving DecidableEq, Repr

/-- The durable state behind the connection pool: the `accounts` table
(primary key `id`, column `balance`), the append-only `ledger` table in
insertion order, and the `processed_ops` table in insertion order. -/
structure StoreState where
  accounts : List (String × ℚ)
  ledger : List LedgerEntry
  processed_ops : List String
  deriving DecidableEq, Repr

/-- The distinct `ValueError`s raised by `Store.transfer`, tagged the way
the source tags its `transfer_requests` metric. -/
inductive TransferError where
  | validationError (msg : String)
  | accountNotFound
  | insufficientFunds
  deriving DecidableEq, Repr

/-- The message carried by the `ValueError` in the source; the HTTP layer
surfaces it as the `detail` of a 400 response. -/
def TransferError.message : TransferError → String
  | .validationError msg => msg
  | .accountNotFound => "account not found"
  | .insufficientFunds => "insufficient funds"

/-- Observable actions of one `Store.transfer` call, in program order:
metric counter increments and gauge updates (the observability sink),
row-lock acquisitions (`SELECT ... FOR UPDATE`), and the transaction
boundary events of the `conn.transaction()` context manager. -/
inductive Event where
  | beginTxn
  | lockAccount (id : String)
  | emitCounter (result : String)
  | emitGauge (account : String) (value : ℚ)
  | commit
  | rollback
  deriving DecidableEq, Repr

deriving instance DecidableEq for Except

/-- Everything one `Store.transfer` call produces: the returned response or
raised error, the state of the store afterwards, and the event trace. -/
structure TransferResult where
  result : Except TransferError TransferResponse
  state : StoreState
  events : List Event
  deriving DecidableEq, Repr

/-- `SELECT balance FROM accounts WHERE id=%s`: balance of the first row
with the key. -/
def getBalance : List (String × ℚ) → String → Option ℚ
  | [], _ => none
  | p :: t, id => if p.1 = id then some p.2 else getBalance t id

/-- `UPDATE accounts SET balance=%s WHERE id=%s`: every row with the key
gets the new balance (the key is unique in the table, but the embedding
does not need that assumption). -/
def setBalance : List (String × ℚ) → String → ℚ → List (String × ℚ)
  | [], _, _ => []
  | p :: t, id, b => (if p.1 = id then (p.1, b) else p) :: setBalance t id b

/-- Python truthiness of `req.operation_id` in `if req.operation_id:`:
`None` and the empty string are falsy. -/
def opTruthy : Option String → Bool
  | none => false
  | some s => s ≠ ""

/-- The duplicate lookup `SELECT 1 FROM processed_ops WHERE operation_id=%s`,
guarded by the truthiness test of the source. -/
def isDuplicate (st : StoreState) (o : Option String) : Bool :=
  opTruthy o && st.processed_ops.contains (o.getD "")

/-- Embedding of `Store.transfer` (src/python/main.py lines 64-142).
`now` stands for `datetime.utcnow().isoformat()`. -/
def Store.transfer (st : StoreState) (req : TransferRequest) (now : String) :
    TransferResult :=
  if req.from_account_id = "" ∨ req.to_account_id = "" then
    ⟨.error (.validationError "fromAccountId and toAccountId are required"),
      st, [.emitCounter "validation_error"]⟩
  else if req.from_account_id = req.to_account_id then
    ⟨.error (.validationError "fromAccountId and toAccountId must differ"),
      st, [.emitCounter "validation_error"]⟩
  else if req.amount ≤ 0 then
    ⟨.error (.validationError "amount must be > 0"),
      st, [.emitCounter "validation_error"]⟩
  else if isDuplicate st req.operation_id then
    ⟨.ok ⟨"ok", "operation already processed", none⟩, st,
      [.beginTxn, .emitCounter "duplicate", .commit]⟩
  else
    match getBalance st.accounts req.from_account_id,
          getBalance st.accounts req.to_account_id with
    | some from_balance, some to_balance =>
      if from_balance < req.amount then
        ⟨.error .insufficientFunds, st,
          [.beginTxn, .lockAccount req.from_account_id,
           .lockAccount req.to_account_id,
           .emitCounter "insufficient_funds", .rollback]⟩
      else
        let new_from := from_balance - req.amount
        let new_to := to_balance + req.amount
        let accounts2 :=
          setBalance (setBalance st.accounts req.from_account_id new_from)
            req.to_account_id new_to
        let ledger2 := st.ledger ++
          [⟨"DEBIT", req.from_account_id, req.amount, now⟩,
           ⟨"CREDIT", req.to_account_id, req.amount, now⟩]
        let processed2 :=
          if opTruthy req.operation_id then
            st.processed_ops ++ [req.operation_id.getD ""]
          else st.processed_ops
        ⟨.ok ⟨"ok", "transfer completed",
            some [(req.from_account_id, new_from),
                  (req.to_account_id, new_to)]⟩,
          ⟨accounts2, ledger2, processed2⟩,
          [.beginTxn, .lockAccount req.from_account_id,
           .lockAccount req.to_account_id,
           .emitGauge req.from_account_id new_from,
           .emitGauge req.to_account_id new_to,
           .emitCounter "success", .commit]⟩
    | _, _ =>
      ⟨.error .accountNotFound, st,
        [.beginTxn, .lockAccount req.from_account_id,
         .lockAccount req.to_account_id,
         .emitCounter "account_not_found", .rollback]⟩

/-- `INSERT ... ON CONFLICT (id) DO NOTHING` for one row. -/
def upsertIgnore (accounts : List (String × ℚ)) (id : String) (b : ℚ) :
    List (String × ℚ) :=
  if accounts.any (fun p => p.1 = id) then accounts else accounts ++ [(id, b)]

/-- Embedding of `Store.seed`: inserts accounts `A` (1000) and `B` (500),
skipping ids that already exist; touches no other table. -/
def Store.seed (st : StoreState) : StoreState :=
  { st with accounts := upsertIgnore (upsertIgnore st.accounts "A" 1000) "B" 500 }

/-- The state after `store.seed()` runs against an empty database. -/
def seedState : StoreState := Store.seed ⟨[], [], []⟩

/-- Outcome at the HTTP boundary of `POST /transfer`: a 200 with the
response body, or an `HTTPException` with a status code and detail. -/
inductive HttpOutcome where
  | success (body : TransferResponse)
  | failure (statusCode : Nat) (detail : String)
  deriving DecidableEq, Repr

/-- Embedding of the `POST /transfer` route handler: any `ValueError`
from `Store.transfer` becomes a 400 with the error message as detail. -/
def transferEndpoint (st : StoreState) (req : TransferRequest) (now : String) :
    HttpOutcome × StoreState :=
  match Store.transfer st req now with
  | ⟨.ok r, st2, _⟩ => (.success r, st2)
  | ⟨.error e, st2, _⟩ => (.failure 400 e.message, st2)

/-- The account ids locked by `SELECT ... FOR UPDATE`, in acquisition
order, read off an event trace. -/
def lockIds (es : List Event) : List String :=
  es.filterMap (fun e => match e with | .lockAccount i => some i | _ => none)

/-- Whether a transfer outcome is one of the `ValueError`s the source
counts under the `validation_error` metric label. -/
def isValidationError : Except TransferError TransferResponse → Bool
  | .error (.validationError _) => true
  | _ => false

/-- A value of the Python `float` type as the pydantic `amount : float`
field admits it by default: a finite value, one of the two infinities, or
NaN.  `Store.transfer` receives these unfiltered, so the checks at lines
71 and 102 of the source are evaluated with IEEE comparison semantics. -/
inductive FVal where
  | num (q : ℚ)
  | inf
  | neginf
  | nan
  deriving DecidableEq, Repr

/-- IEEE float comparison `a <= b`: every comparison involving NaN is
false. -/
def FVal.le : FVal → FVal → Bool
  | .nan, _ => false
  | _, .nan => false
  | .neginf, _ => true
  | _, .neginf => false
  | _, .inf => true
  | .inf, _ => false
  | .num a, .num b => a ≤ b

/-- IEEE float comparison `a < b`: every comparison involving NaN is
false. -/
def FVal.lt : FVal → FVal → Bool
  | .nan, _ => false
  | _, .nan => false
  | .neginf, .neginf => false
  | .neginf, _ => true
  | _, .neginf => false
  | .inf, _ => false
  | _, .inf => true
  | .num a, .num b => a < b

/-- IEEE float addition: NaN propagates, opposite infinities give NaN,
an infinity absorbs finite values. -/
def FVal.add : FVal → FVal → FVal
  | .nan, _ => .nan
  | _, .nan => .nan
  | .inf, .neginf => .nan
  | .neginf, .inf => .nan
  | .inf, _ => .inf
  | _, .inf => .inf
  | .neginf, _ => .neginf
  | _, .neginf => .neginf
  | .num a, .num b => .num (a + b)

/-- IEEE float subtraction: NaN propagates, same-signed infinities give
NaN, an infinity absorbs finite values. -/
def FVal.sub : FVal → FVal → FVal
  | .nan, _ => .nan
  | _, .nan => .nan
  | .inf, .inf => .nan
  | .neginf, .neginf => .nan
  | .inf, _ => .inf
  | .neginf, _ => .neginf
  | _, .inf => .neginf
  | _, .neginf => .inf
  | .num a, .num b => .num (a - b)

/-- `TransferRequest` with the `amount` field at the full IEEE float
domain the pydantic `float` type admits, instead of the exact-rational
restriction used by the main embedding. -/
structure TransferRequestF where
  from_account_id : String
  to_account_id : String
  amount : FVal
  operation_id : Option String
  deriving DecidableEq, Repr

/-- `TransferResponse` over the float domain. -/
structure TransferResponseF where
  status : String
  message : String
  balances : Option (List (String × FVal))
  deriving DecidableEq, Repr

/-- A `ledger` row over the float domain. -/
structure LedgerEntryF where
  type : String
  accountId : String
  amount : FVal
  at_ : String
  deriving DecidableEq, Repr

/-- The durable state over the float domain. -/
structure StoreStateF where
  accounts : List (String × FVal)
  ledger : List LedgerEntryF
  processed_ops : List String
  deriving DecidableEq, Repr

/-- Result of one float-domain `Store.transfer` call (response or raised
error, plus the state afterwards). -/
structure TransferResultF where
  result : Except TransferError TransferResponseF
  state : StoreStateF
  deriving DecidableEq, Repr

/-- `SELECT balance FROM accounts WHERE id=%s` over the float domain. -/
def getBalanceF : List (String × FVal) → String → Option FVal
  | [], _ => none
  | p :: t, id => if p.1 = id then some p.2 else getBalanceF t id

/-- `UPDATE accounts SET balance=%s WHERE id=%s` over the float domain. -/
def setBalanceF : List (String × FVal) → String → FVal → List (String × FVal)
  | [], _, _ => []
  | p :: t, id, b => (if p.1 = id then (p.1, b) else p) :: setBalanceF t id b

/-- The truthiness-guarded duplicate lookup over the float-domain state. -/
def isDuplicateF (st : StoreStateF) (o : Option String) : Bool :=
  opTruthy o && st.processed_ops.contains (o.getD "")

/-- `Store.transfer` (src/python/main.py lines 64-142) once more, with the
`amount` field and the stored balances kept at the full IEEE float domain
the Python types admit.  The control flow is transcribed exactly as in
`Store.transfer`; only the metric/lock event trace is not repeated here,
since it is identical in shape.  Line 71's `req.amount <= 0` and line
102's `from_balance < req.amount` become IEEE comparisons, which are
false whenever NaN is involved. -/
def Store.transferFloat (st : StoreStateF) (req : TransferRequestF)
    (now : String) : TransferResultF :=
  if req.from_account_id = "" ∨ req.to_account_id = "" then
    ⟨.error (.validationError "fromAccountId and toAccountId are required"), st⟩
  else if req.from_account_id = req.to_account_id then
    ⟨.error (.validationError "fromAccountId and toAccountId must differ"), st⟩
  else if FVal.le req.amount (.num 0) then
    ⟨.error (.validationError "amount must be > 0"), st⟩
  else if isDuplicateF st req.operation_id then
    ⟨.ok ⟨"ok", "operation already processed", none⟩, st⟩
  else
    match getBalanceF st.accounts req.from_account_id,
          getBalanceF st.accounts req.to_account_id with
    | some from_balance, some to_balance =>
      if FVal.lt from_balance req.amount then
        ⟨.error .insufficientFunds, st⟩
      else
        let new_from := from_balance.sub req.amount
        let new_to := to_balance.add req.amount
        ⟨.ok ⟨"ok", "transfer completed",
            some [(req.from_account_id, new_from),
                  (req.to_account_id, new_to)]⟩,
          ⟨setBalanceF (setBalanceF st.accounts req.from_account_id new_from)
              req.to_account_id new_to,
           st.ledger ++ [⟨"DEBIT", req.from_account_id, req.amount, now⟩,
                         ⟨"CREDIT", req.to_account_id, req.amount, now⟩],
           if opTruthy req.operation_id then
             st.processed_ops ++ [req.operation_id.getD ""]
           else st.processed_ops⟩⟩
    | _, _ => ⟨.error .accountNotFound, st⟩

/-- The seeded state over the float domain: `A` at 1000.0, `B` at 500.0,
both exactly representable. -/
def seedStateF : StoreStateF := ⟨[("A", .num 1000), ("B", .num 500)], [], []⟩

lemma transfer_success_eq (st : StoreState) (req : TransferRequest) (now : String)
    (fb tb : ℚ)
    (hfrom : req.from_account_id ≠ "") (hto : req.to_account_id ≠ "")
    (hne : req.from_account_id ≠ req.to_account_id)
    (hpos : 0 < req.amount)
    (hdup : isDuplicate st req.operation_id = false)
    (hf : getBalance st.accounts req.from_account_id = some fb)
    (ht : getBalance st.accounts req.to_account_id = some tb)
    (hle : req.amount ≤ fb) :
    Store.transfer st req now =
      ⟨.ok ⟨"ok", "transfer completed",
          some [(req.from_account_id, fb - req.amount),
                (req.to_account_id, tb + req.amount)]⟩,
       ⟨setBalance (setBalance st.accounts req.from_account_id (fb - req.amount))
           req.to_account_id (tb + req.amount),
        st.ledger ++ [⟨"DEBIT", req.from_account_id, req.amount, now⟩,
                      ⟨"CREDIT", req.to_account_id, req.amount, now⟩],
        if opTruthy req.operation_id then st.processed_ops ++ [req.operation_id.getD ""]
        else st.processed_ops⟩,
       [.beginTxn, .lockAccount req.from_account_id, .lockAccount req.to_account_id,
        .emitGauge req.from_account_id (fb - req.amount),
        .emitGauge req.to_account_id (tb + req.amount),
        .emitCounter "success", .commit]⟩ := by
  unfold Store.transfer
  rw [if_neg (by push_neg; exact ⟨hfrom, hto⟩), if_neg hne,
    if_neg (not_le.mpr hpos), if_neg (by simp [hdup]), hf, ht]
  simp only [if_neg (not_lt.mpr hle)]

lemma transfer_ok_inv (st : StoreState) (req : TransferRequest) (now : String)
    (resp : TransferResponse)
    (hok : (Store.transfer st req now).result = .ok resp)
    (hb : resp.balances.isSome) :
    ∃ fb tb,
      req.from_account_id ≠ "" ∧ req.to_account_id ≠ "" ∧
      req.from_account_id ≠ req.to_account_id ∧ 0 < req.amount ∧
      isDuplicate st req.operation_id = false ∧
      getBalance st.accounts req.from_account_id = some fb ∧
      getBalance st.accounts req.to_account_id = some tb ∧
      req.amount ≤ fb ∧
      resp = ⟨"ok", "transfer completed",
        some [(req.from_account_id, fb - req.amount),
              (req.to_account_id, tb + req.amount)]⟩ := by
  unfold Store.transfer at hok
  by_cases h1 : (req.from_account_id = "" ∨ req.to_account_id = "")
  · rw [if_pos h1] at hok; simp at hok
  rw [if_neg h1] at hok
  by_cases h2 : req.from_account_id = req.to_account_id
  · rw [if_pos h2] at hok; simp at hok
  rw [if_neg h2] at hok
  by_cases h3 : req.amount ≤ 0
  · rw [if_pos h3] at hok; simp at hok
  rw [if_neg h3] at hok
  by_cases h4 : isDuplicate st req.operation_id = true
  · rw [if_pos h4] at hok; simp at hok
    rw [← hok] at hb; simp at hb
  rw [if_neg h4] at hok
  push_neg at h1
  split at hok
  · rename_i fb tb hf ht
    by_cases h5 : fb < req.amount
    · rw [if_pos h5] at hok; simp at hok
    · rw [if_neg h5] at hok; simp at hok
      exact ⟨fb, tb, h1.1, h1.2, h2, lt_of_not_le h3, Bool.eq_false_iff.mpr h4, hf, ht,
        not_lt.mp h5, by rw [← hok]⟩
  · simp at hok

lemma getBalance_setBalance_self (a : List (String × ℚ)) (id : String) (b : ℚ) :
    getBalance (setBalance a id b) id = (getBalance a id).map (fun _ => b) := by
  induction a with
  | nil => rfl
  | cons p t ih =>
    by_cases h : p.1 = id
    · simp [getBalance, setBalance, h]
    · simpa [getBalance, setBalance, h] using ih

lemma getBalance_setBalance_ne (a : List (String × ℚ)) (id id2 : String) (b : ℚ)
    (h : id2 ≠ id) :
    getBalance (setBalance a id2 b) id = getBalance a id := by
  induction a with
  | nil => rfl
  | cons p t ih =>
    by_cases hp : p.1 = id2
    · simp [getBalance, setBalance, hp, h, ih]
    · by_cases hq : p.1 = id
      · simp [getBalance, setBalance, hp, hq, Ne.symm h]
      · simpa [getBalance, setBalance, hp, hq] using ih

lemma getBalance_mem (a : List (String × ℚ)) (id : String) (v : ℚ)
    (h : getBalance a id = some v) : ∃ k, (k, v) ∈ a := by
  induction a with
  | nil => simp [getBalance] at h
  | cons p t ih =>
    by_cases hp : p.1 = id
    · rw [getBalance, if_pos hp] at h
      simp at h
      exact ⟨p.1, by simp [← h]⟩
    · rw [getBalance, if_neg hp] at h
      obtain ⟨k, hk⟩ := ih h
      exact ⟨k, List.mem_cons_of_mem _ hk⟩

lemma setBalance_nonneg (a : List (String × ℚ)) (id : String) (b : ℚ)
    (hb : 0 ≤ b) (ha : ∀ p ∈ a, 0 ≤ p.2) :
    ∀ p ∈ setBalance a id b, 0 ≤ p.2 := by
  induction a with
  | nil => simp [setBalance]
  | cons p t ih =>
    intro q hq
    rw [setBalance] at hq
    rcases List.mem_cons.mp hq with hq1 | hq2
    · by_cases hp : p.1 = id
      · rw [if_pos hp] at hq1; rw [hq1]; exact hb
      · rw [if_neg hp] at hq1; rw [hq1]; exact ha p (List.mem_cons_self p t)
    · exact ih (fun r hr => ha r (List.mem_cons_of_mem _ hr)) q hq2

/-- C1: for every successful transfer of amount `m` from account `F` to
account `T`, the sum of the two balances is conserved — the new balance of
`F` plus the new balance of `T` equals the old sum — and the committed
DEBIT and CREDIT ledger amounts are both exactly `m`. -/
theorem transfer_conserves_balance_sum (st : StoreState) (req : TransferRequest)
    (now : String) (resp : TransferResponse) (fb tb : ℚ)
    (hok : (Store.transfer st req now).result = Except.ok resp)
    (hb : resp.balances.isSome)
    (hf : getBalance st.accounts req.from_account_id = some fb)
    (ht : getBalance st.accounts req.to_account_id = some tb) :
    getBalance (Store.transfer st req now).state.accounts req.from_account_id =
      some (fb - req.amount) ∧
    getBalance (Store.transfer st req now).state.accounts req.to_account_id =
      some (tb + req.amount) ∧
    (fb - req.amount) + (tb + req.amount) = fb + tb ∧
    (Store.transfer st req now).state.ledger =
      st.ledger ++ [⟨"DEBIT", req.from_account_id, req.amount, now⟩,
                    ⟨"CREDIT", req.to_account_id, req.amount, now⟩] := by
  obtain ⟨fb2, tb2, hfrom, hto, hne, hpos, hdup, hf2, ht2, hle, hresp⟩ :=
    transfer_ok_inv st req now resp hok hb
  rw [hf] at hf2
  rw [ht] at ht2
  injection hf2 with hf2
  injection ht2 with ht2
  subst hf2
  subst ht2
  rw [transfer_success_eq st req now fb tb hfrom hto hne hpos hdup hf ht hle]
  refine ⟨?_, ?_, by ring, rfl⟩
  · rw [getBalance_setBalance_ne _ _ _ _ (Ne.symm hne), getBalance_setBalance_self, hf]
    rfl
  · rw [getBalance_setBalance_self, getBalance_setBalance_ne _ _ _ _ hne, ht]
    rfl

/-- Witness for C1 at the seeded scenario: transferring 200 from `A`
(balance 1000) to `B` (balance 500). -/
theorem transfer_conserves_balance_sum_witness :
    getBalance (Store.transfer seedState ⟨"A", "B", 200, none⟩ "T").state.accounts "A" =
      some (1000 - 200) ∧
    getBalance (Store.transfer seedState ⟨"A", "B", 200, none⟩ "T").state.accounts "B" =
      some (500 + 200) ∧
    (1000 - 200 : ℚ) + (500 + 200) = 1000 + 500 ∧
    (Store.transfer seedState ⟨"A", "B", 200, none⟩ "T").state.ledger =
      seedState.ledger ++ [⟨"DEBIT", "A", 200, "T"⟩, ⟨"CREDIT", "B", 200, "T"⟩] :=
  transfer_conserves_balance_sum seedState ⟨"A", "B", 200, none⟩ "T"
    ⟨"ok", "transfer completed", some [("A", 800), ("B", 700)]⟩ 1000 500
    (by simp [Store.transfer, seedState, Store.seed, upsertIgnore,
      isDuplicate, opTruthy, getBalance, setBalance]
        norm_num)
    rfl rfl rfl

/-- C3: assuming every stored balance is non-negative before the transfer,
no committed transfer leaves any balance below zero. -/
theorem no_negative_balances (st : StoreState) (req : TransferRequest)
    (now : String) (resp : TransferResponse)
    (hpre : ∀ p ∈ st.accounts, 0 ≤ p.2)
    (hok : (Store.transfer st req now).result = Except.ok resp)
    (hb : resp.balances.isSome) :
    ∀ p ∈ (Store.transfer st req now).state.accounts, 0 ≤ p.2 := by
  obtain ⟨fb, tb, hfrom, hto, hne, hpos, hdup, hf, ht, hle, hresp⟩ :=
    transfer_ok_inv st req now resp hok hb
  rw [transfer_success_eq st req now fb tb hfrom hto hne hpos hdup hf ht hle]
  have htb : 0 ≤ tb := by
    obtain ⟨k, hk⟩ := getBalance_mem _ _ _ ht
    exact hpre (k, tb) hk
  exact setBalance_nonneg _ _ _ (add_nonneg htb (le_of_lt hpos))
    (setBalance_nonneg _ _ _ (sub_nonneg.mpr hle) hpre)

/-- Witness for C3 at the seeded scenario. -/
theorem no_negative_balances_witness :
    ((Store.transfer seedState ⟨"A", "B", 200, none⟩ "T").state.accounts.all
      (fun p => decide (0 ≤ p.2))) = true := by
  have h := no_negative_balances seedState ⟨"A", "B", 200, none⟩ "T"
    ⟨"ok", "transfer completed", some [("A", 800), ("B", 700)]⟩
    (by intro p hp
        simp [seedState, Store.seed, upsertIgnore] at hp
        rcases hp with h | h <;> rw [h] <;> norm_num)
    (by simp [Store.transfer, seedState, Store.seed, upsertIgnore,
      isDuplicate, opTruthy, getBalance, setBalance]
        norm_num)
    rfl
  simp only [List.all_eq_true, decide_eq_true_eq]
  exact h

/-- C6: starting from the seeded state (`A` at 1000, `B` at 500), a
transfer of 200 from `A` to `B` commits with `status=ok`, returns the new
balances `A=800, B=700`, and appends exactly the two ledger entries
`DEBIT A 200` and `CREDIT B 200`. -/
theorem seeded_scenario_transfer (now : String) :
    Store.transfer seedState ⟨"A", "B", 200, none⟩ now =
      ⟨.ok ⟨"ok", "transfer completed", some [("A", 800), ("B", 700)]⟩,
       ⟨[("A", 800), ("B", 700)],
        [⟨"DEBIT", "A", 200, now⟩, ⟨"CREDIT", "B", 200, now⟩], []⟩,
       [.beginTxn, .lockAccount "A", .lockAccount "B",
        .emitGauge "A" 800, .emitGauge "B" 700,
        .emitCounter "success", .commit]⟩ := by
  simp [Store.transfer, seedState, Store.seed, upsertIgnore, isDuplicate,
    opTruthy, getBalance, setBalance]
  norm_num

/-- Counterexample to C2 as stated: the empty string is an operation
identifier supplied with the request, yet issuing the same request twice
applies the transfer twice — the first call moves the balances from
1000/500 to 900/600, the second call moves them again to 800/700, and both
calls return a full success rather than a duplicate outcome. -/
theorem idempotency_empty_id_counterexample :
    Store.transfer seedState ⟨"A", "B", 100, some ""⟩ "t1" =
      ⟨.ok ⟨"ok", "transfer completed", some [("A", 900), ("B", 600)]⟩,
       ⟨[("A", 900), ("B", 600)],
        [⟨"DEBIT", "A", 100, "t1"⟩, ⟨"CREDIT", "B", 100, "t1"⟩], []⟩,
       [.beginTxn, .lockAccount "A", .lockAccount "B",
        .emitGauge "A" 900, .emitGauge "B" 600,
        .emitCounter "success", .commit]⟩ ∧
    (Store.transfer
      ⟨[("A", 900), ("B", 600)],
       [⟨"DEBIT", "A", 100, "t1"⟩, ⟨"CREDIT", "B", 100, "t1"⟩], []⟩
      ⟨"A", "B", 100, some ""⟩ "t2").result =
      .ok ⟨"ok", "transfer completed", some [("A", 800), ("B", 700)]⟩ := by
  constructor <;>
    · simp [Store.transfer, seedState, Store.seed, upsertIgnore, isDuplicate,
        opTruthy, getBalance, setBalance]
      norm_num

/-- C2 (amended to non-empty operation identifiers): a successful transfer
that supplied a non-empty identifier records it in the registry, and any
later well-formed request carrying an identifier already in the registry
returns the duplicate outcome (`status=ok`, informational message, no
balances) with no side effects on the stored state. -/
theorem idempotency_nonempty_id (st : StoreState) (req : TransferRequest)
    (now : String) (s : String)
    (hid : req.operation_id = some s) (hs : s ≠ "") :
    (∀ resp, (Store.transfer st req now).result = Except.ok resp →
      resp.balances.isSome →
      s ∈ (Store.transfer st req now).state.processed_ops) ∧
    (s ∈ st.processed_ops →
      req.from_account_id ≠ "" → req.to_account_id ≠ "" →
      req.from_account_id ≠ req.to_account_id → 0 < req.amount →
      Store.transfer st req now =
        ⟨.ok ⟨"ok", "operation already processed", none⟩, st,
         [.beginTxn, .emitCounter "duplicate", .commit]⟩) := by
  constructor
  · intro resp hok hb
    obtain ⟨fb, tb, hfrom, hto, hne, hpos, hdup, hf, ht, hle, hresp⟩ :=
      transfer_ok_inv st req now resp hok hb
    rw [transfer_success_eq st req now fb tb hfrom hto hne hpos hdup hf ht hle]
    simp [hid, opTruthy, hs]
  · intro hmem hfrom hto hne hpos
    unfold Store.transfer
    rw [if_neg (by push_neg; exact ⟨hfrom, hto⟩), if_neg hne,
      if_neg (not_le.mpr hpos),
      if_pos (by simp [isDuplicate, hid, opTruthy, hs, hmem])]

/-- Witness for the amended C2: the identifier `op1` is recorded by a
successful transfer from the seeded state, and a second identical request
against the resulting state returns the duplicate outcome unchanged. -/
theorem idempotency_nonempty_id_witness :
    "op1" ∈ (Store.transfer seedState ⟨"A", "B", 200, some "op1"⟩ "t1").state.processed_ops ∧
    Store.transfer
      ⟨[("A", 800), ("B", 700)],
       [⟨"DEBIT", "A", 200, "t1"⟩, ⟨"CREDIT", "B", 200, "t1"⟩], ["op1"]⟩
      ⟨"A", "B", 200, some "op1"⟩ "t2" =
      ⟨.ok ⟨"ok", "operation already processed", none⟩,
       ⟨[("A", 800), ("B", 700)],
        [⟨"DEBIT", "A", 200, "t1"⟩, ⟨"CREDIT", "B", 200, "t1"⟩], ["op1"]⟩,
       [.beginTxn, .emitCounter "duplicate", .commit]⟩ :=
  ⟨(idempotency_nonempty_id seedState ⟨"A", "B", 200, some "op1"⟩ "t1" "op1"
      rfl (by decide)).1
      ⟨"ok", "transfer completed", some [("A", 800), ("B", 700)]⟩
      (by simp [Store.transfer, seedState, Store.seed, upsertIgnore,
          isDuplicate, opTruthy, getBalance, setBalance]
          norm_num)
      rfl,
   (idempotency_nonempty_id
      ⟨[("A", 800), ("B", 700)],
       [⟨"DEBIT", "A", 200, "t1"⟩, ⟨"CREDIT", "B", 200, "t1"⟩], ["op1"]⟩
      ⟨"A", "B", 200, some "op1"⟩ "t2" "op1" rfl (by decide)).2
      (by decide) (by decide) (by decide) (by decide) (by norm_num)⟩

/-- C10: a request whose `operationId` is the empty string behaves exactly
as if no `operationId` had been supplied — the idempotency registry is
neither consulted (`isDuplicate` is `false`) nor written (`processed_ops`
is unchanged), so repeating such a request re-applies the transfer. -/
theorem empty_operation_id_ignored (st : StoreState) (req : TransferRequest)
    (now : String) (hid : req.operation_id = some "") :
    Store.transfer st req now =
      Store.transfer st { req with operation_id := none } now ∧
    (Store.transfer st req now).state.processed_ops = st.processed_ops ∧
    isDuplicate st req.operation_id = false := by
  obtain ⟨f, t, a, o⟩ := req
  simp only at hid
  subst hid
  refine ⟨?_, ?_, by simp [isDuplicate, opTruthy]⟩
  · unfold Store.transfer
    simp [isDuplicate, opTruthy]
  · unfold Store.transfer
    simp [isDuplicate, opTruthy]
    repeat' split
    all_goals rfl

/-- Witness for C10 at a concrete request: empty `operationId`, seeded
state. -/
theorem empty_operation_id_ignored_witness :
    Store.transfer seedState ⟨"A", "B", 200, some ""⟩ "T" =
      Store.transfer seedState ⟨"A", "B", 200, none⟩ "T" ∧
    (Store.transfer seedState ⟨"A", "B", 200, some ""⟩ "T").state.processed_ops =
      seedState.processed_ops ∧
    isDuplicate seedState (some "") = false :=
  empty_operation_id_ignored seedState ⟨"A", "B", 200, some ""⟩ "T" rfl

lemma transfer_ledger_monotone (st : StoreState) (req : TransferRequest)
    (now : String) :
    ∃ rest, (Store.transfer st req now).state.ledger = st.ledger ++ rest := by
  unfold Store.transfer
  repeat' split
  all_goals first
    | exact ⟨[], (List.append_nil _).symm⟩
    | exact ⟨_, rfl⟩

/-- C7: every successful transfer appends exactly one DEBIT entry for the
source and one CREDIT entry for the destination, with the same amount and
the same timestamp; no operation of the engine ever rewrites existing
ledger entries — `transfer` only appends to the ledger and `seed` leaves
it untouched. -/
theorem ledger_pair_append_only (st : StoreState) (req : TransferRequest)
    (now : String) (resp : TransferResponse)
    (hok : (Store.transfer st req now).result = Except.ok resp)
    (hb : resp.balances.isSome) :
    (Store.transfer st req now).state.ledger =
      st.ledger ++ [⟨"DEBIT", req.from_account_id, req.amount, now⟩,
                    ⟨"CREDIT", req.to_account_id, req.amount, now⟩] ∧
    (∀ st2 req2 now2, ∃ rest,
      (Store.transfer st2 req2 now2).state.ledger = st2.ledger ++ rest) ∧
    (∀ st3, (Store.seed st3).ledger = st3.ledger) := by
  obtain ⟨fb, tb, hfrom, hto, hne, hpos, hdup, hf, ht, hle, hresp⟩ :=
    transfer_ok_inv st req now resp hok hb
  rw [transfer_success_eq st req now fb tb hfrom hto hne hpos hdup hf ht hle]
  exact ⟨rfl, transfer_ledger_monotone, fun _ => rfl⟩

/-- Witness for C7 at the seeded scenario. -/
theorem ledger_pair_append_only_witness :
    (Store.transfer seedState ⟨"A", "B", 200, none⟩ "T").state.ledger =
      seedState.ledger ++ [⟨"DEBIT", "A", 200, "T"⟩, ⟨"CREDIT", "B", 200, "T"⟩] :=
  (ledger_pair_append_only seedState ⟨"A", "B", 200, none⟩ "T"
    ⟨"ok", "transfer completed", some [("A", 800), ("B", 700)]⟩
    (by simp [Store.transfer, seedState, Store.seed, upsertIgnore,
        isDuplicate, opTruthy, getBalance, setBalance]
        norm_num)
    rfl).1

/-- C8: when the source balance is strictly below the requested amount (and
the request is otherwise well-formed and not a duplicate), the transfer
fails with the insufficient-funds `ValueError`, the transaction rolls back
leaving balances, ledger and idempotency registry exactly as before, and
the HTTP layer surfaces it as a 400 client error. -/
theorem insufficient_funds_rejected (st : StoreState) (req : TransferRequest)
    (now : String) (fb tb : ℚ)
    (hfrom : req.from_account_id ≠ "") (hto : req.to_account_id ≠ "")
    (hne : req.from_account_id ≠ req.to_account_id) (hpos : 0 < req.amount)
    (hdup : isDuplicate st req.operation_id = false)
    (hf : getBalance st.accounts req.from_account_id = some fb)
    (ht : getBalance st.accounts req.to_account_id = some tb)
    (hlt : fb < req.amount) :
    Store.transfer st req now =
      ⟨.error .insufficientFunds, st,
       [.beginTxn, .lockAccount req.from_account_id,
        .lockAccount req.to_account_id,
        .emitCounter "insufficient_funds", .rollback]⟩ ∧
    transferEndpoint st req now = (.failure 400 "insufficient funds", st) := by
  have h : Store.transfer st req now =
      ⟨.error .insufficientFunds, st,
       [.beginTxn, .lockAccount req.from_account_id,
        .lockAccount req.to_account_id,
        .emitCounter "insufficient_funds", .rollback]⟩ := by
    unfold Store.transfer
    rw [if_neg (by push_neg; exact ⟨hfrom, hto⟩), if_neg hne,
      if_neg (not_le.mpr hpos), if_neg (by simp [hdup]), hf, ht]
    simp only [if_pos hlt]
  exact ⟨h, by simp [transferEndpoint, h, TransferError.message]⟩

/-- Witness for C8 at the spec scenario: `A→B amount=2000` against the
seeded state (balance 1000) is rejected with a 400 and no state change. -/
theorem insufficient_funds_rejected_witness :
    Store.transfer seedState ⟨"A", "B", 2000, none⟩ "T" =
      ⟨.error .insufficientFunds, seedState,
       [.beginTxn, .lockAccount "A", .lockAccount "B",
        .emitCounter "insufficient_funds", .rollback]⟩ ∧
    transferEndpoint seedState ⟨"A", "B", 2000, none⟩ "T" =
      (.failure 400 "insufficient funds", seedState) :=
  insufficient_funds_rejected seedState ⟨"A", "B", 2000, none⟩ "T" 1000 500
    (by decide) (by decide) (by decide) (by norm_num) rfl rfl rfl (by norm_num)

/-- C4 is violated by the code: the `SELECT ... FOR UPDATE` statements run
in request order (source first, destination second), not in a fixed
deterministic order of account ids, so the two opposite-direction
transfers `A→B` and `B→A` acquire their row locks in conflicting orders
(`["A","B"]` versus `["B","A"]`). -/
theorem lock_order_depends_on_direction :
    lockIds (Store.transfer seedState ⟨"A", "B", 200, none⟩ "T").events =
      ["A", "B"] ∧
    lockIds (Store.transfer seedState ⟨"B", "A", 200, none⟩ "T").events =
      ["B", "A"] ∧
    lockIds (Store.transfer seedState ⟨"B", "A", 200, none⟩ "T").events ≠
      lockIds (Store.transfer seedState ⟨"A", "B", 200, none⟩ "T").events := by
  refine ⟨?_, ?_, ?_⟩ <;>
    · simp [lockIds, Store.transfer, seedState, Store.seed, upsertIgnore,
        isDuplicate, opTruthy, getBalance, setBalance, List.filterMap_cons]
      try norm_num
      try decide

/-- C9 is violated by the code: on a successful transfer the balance
gauges and the outcome counter are emitted strictly before the transaction
commit (the emission happens inside the `conn.transaction()` block), so
the emission is not post-commit and a failure in it would roll the
transaction back.  In the trace of the seeded scenario the gauge emission
sits at index 3 and the commit at index 6. -/
theorem emission_inside_transaction :
    (Store.transfer seedState ⟨"A", "B", 200, none⟩ "T").events =
      [.beginTxn, .lockAccount "A", .lockAccount "B", .emitGauge "A" 800,
       .emitGauge "B" 700, .emitCounter "success", .commit] ∧
    (Store.transfer seedState ⟨"A", "B", 200, none⟩ "T").events[3]? =
      some (.emitGauge "A" 800) ∧
    (Store.transfer seedState ⟨"A", "B", 200, none⟩ "T").events[6]? =
      some .commit ∧
    Event.commit ∉
      ((Store.transfer seedState ⟨"A", "B", 200, none⟩ "T").events.take 6) := by
  refine ⟨?_, ?_, ?_, ?_⟩ <;>
    · simp [Store.transfer, seedState, Store.seed, upsertIgnore,
        isDuplicate, opTruthy, getBalance, setBalance]
      try norm_num
      try decide

/-- C5 is violated by the code: the claim requires a ValidationError
exactly when the amount is "not a finite positive value", but line 71
only checks `req.amount <= 0`, which under IEEE semantics is false for
the non-finite amounts the pydantic `float` field admits.  With
`amount = +inf` validation passes and the request is instead rejected as
insufficient funds at line 102; with `amount = NaN` validation and the
balance check both pass and the transfer commits, writing NaN balances.
No ValidationError is raised in either case. -/
theorem nonfinite_amount_skips_validation :
    (Store.transferFloat seedStateF ⟨"A", "B", .inf, none⟩ "T").result =
      .error .insufficientFunds ∧
    (Store.transferFloat seedStateF ⟨"A", "B", .inf, none⟩ "T").state =
      seedStateF ∧
    (Store.transferFloat seedStateF ⟨"A", "B", .nan, none⟩ "T").result =
      .ok ⟨"ok", "transfer completed", some [("A", .nan), ("B", .nan)]⟩ ∧
    getBalanceF (Store.transferFloat seedStateF
      ⟨"A", "B", .nan, none⟩ "T").state.accounts "A" = some .nan ∧
    getBalanceF (Store.transferFloat seedStateF
      ⟨"A", "B", .nan, none⟩ "T").state.accounts "B" = some .nan := by
  decide

end Fintech
